import Mathlib

/-!
Verification of the Cognitive Load Computation Engine of the
cognitive-calendar repository, shallowly embedded from
src/server/logic.js.

Numbers are modelled as rationals.  JavaScript arithmetic on possibly
missing data is modelled by Option ℚ, where `none` plays the role of
NaN (the value of `new Date(undefined)` valueOf, and of any arithmetic
expression containing NaN): every arithmetic operation propagates
`none`, and every comparison with `none` is false, exactly as NaN
behaves under JS `<`, `<=` and `Math.max`/`Math.min`.
`Number(v.toFixed(3))` is modelled as decimal rounding half toward
+infinity (the ECMA-262 toFixed rule: of two nearest candidates pick
the larger), and local time is taken as UTC.
-/

/-- JS subtraction: NaN-propagating. -/
def jsub : Option ℚ → Option ℚ → Option ℚ
  | some a, some b => some (a - b)
  | _, _ => none

/-- JS addition of two possibly-NaN numbers: NaN-propagating. -/
def jadd : Option ℚ → Option ℚ → Option ℚ
  | some a, some b => some (a + b)
  | _, _ => none

/-- JS division by a (non-NaN, nonzero) constant. -/
def jdivC (o : Option ℚ) (c : ℚ) : Option ℚ := o.map (fun v => v / c)

/-- JS multiplication by a (non-NaN) constant. -/
def jmulC (o : Option ℚ) (c : ℚ) : Option ℚ := o.map (fun v => v * c)

/-- JS addition of a (non-NaN) constant. -/
def jaddC (o : Option ℚ) (c : ℚ) : Option ℚ := o.map (fun v => v + c)

/-- JS Math.max with a constant first argument: Math.max(c, NaN) = NaN. -/
def jmaxC (c : ℚ) (o : Option ℚ) : Option ℚ := o.map (fun v => max c v)

/-- JS comparison v <= c; false when v is NaN. -/
def jleB (o : Option ℚ) (c : ℚ) : Bool :=
  match o with
  | some v => decide (v ≤ c)
  | none => false

/-- JS comparison v < c on rationals; false when v is NaN. -/
def jltB (o : Option ℚ) (c : ℚ) : Bool :=
  match o with
  | some v => decide (v < c)
  | none => false

/-- JS comparison v >= c on rationals; false when v is NaN. -/
def jgeB (o : Option ℚ) (c : ℚ) : Bool :=
  match o with
  | some v => decide (c ≤ v)
  | none => false

/-- JS comparison h < c on integer hour values; false when h is NaN. -/
def jltIntB (o : Option ℤ) (c : ℤ) : Bool :=
  match o with
  | some v => decide (v < c)
  | none => false

/-- JS `o || d` on numbers: undefined, NaN and 0 are falsy. -/
def jsOrQ (o : Option ℚ) (d : ℚ) : ℚ :=
  match o with
  | some v => if v = 0 then d else v
  | none => d

/-- JS `o || d` on optional strings: undefined and the empty string are falsy. -/
def jsOrStr (o : Option String) (d : String) : String :=
  match o with
  | some s => if s = "" then d else s
  | none => d

/-- `Number(value.toFixed(3))`: round to 3 decimal places, ties toward +infinity. -/
def toFixed3 (value : ℚ) : ℚ := ((⌊value * 1000 + 1 / 2⌋ : ℤ) : ℚ) / 1000

/-- logic.js lines 253-255: `clamp(value) = Math.max(0, Math.min(1, Number(value.toFixed(3))))`. -/
def clamp (value : ℚ) : ℚ := max 0 (min 1 (toFixed3 value))

/-- `clamp` lifted to possibly-NaN values; clamp(NaN) = NaN in JS. -/
def jclamp (o : Option ℚ) : Option ℚ := o.map clamp

/-- logic.js lines 3-13: BASELINES.meetingType, as a key lookup. -/
def BASELINES.meetingType (s : String) : Option ℚ :=
  if s = "standup" then some 0.2
  else if s = "status" then some 0.3
  else if s = "demo" then some 0.4
  else if s = "planning" then some 0.6
  else if s = "brainstorming" then some 0.7
  else if s = "design_review" then some 0.8
  else if s = "decision" then some 0.9
  else if s = "conflict" then some 1.0
  else none

/-- logic.js lines 14-19: BASELINES.roleLoad. -/
def BASELINES.roleLoad (s : String) : Option ℚ :=
  if s = "listener" then some 0.3
  else if s = "occasional_contributor" then some 0.5
  else if s = "contributor" then some 0.8
  else if s = "decision_maker" then some 1.0
  else none

/-- logic.js lines 20-26: BASELINES.emotionalLoad. -/
def BASELINES.emotionalLoad (s : String) : Option ℚ :=
  if s = "routine" then some 0.2
  else if s = "external" then some 0.4
  else if s = "feedback" then some 0.6
  else if s = "performance" then some 0.8
  else if s = "conflict" then some 1.0
  else none

/-- logic.js line 28: BASELINES.socialLoad bucket 1-2. -/
def BASELINES.socialLoad_1_2 : ℚ := 0.2

/-- logic.js line 29: BASELINES.socialLoad bucket 3-5. -/
def BASELINES.socialLoad_3_5 : ℚ := 0.4

/-- logic.js line 30: BASELINES.socialLoad bucket 6-10. -/
def BASELINES.socialLoad_6_10 : ℚ := 0.6

/-- logic.js line 31: BASELINES.socialLoad bucket 11-20. -/
def BASELINES.socialLoad_11_20 : ℚ := 0.8

/-- logic.js line 32: BASELINES.socialLoad bucket 20+. -/
def BASELINES.socialLoad_20plus : ℚ := 1.0

/-- logic.js line 35: BASELINES.topicChangeCost.same_project. -/
def BASELINES.topicChangeCost_same_project : ℚ := 0.0

/-- logic.js line 36: BASELINES.topicChangeCost.related_domain. -/
def BASELINES.topicChangeCost_related_domain : ℚ := 0.3

/-- logic.js line 37: BASELINES.topicChangeCost.different_domain. -/
def BASELINES.topicChangeCost_different_domain : ℚ := 0.7

/-- logic.js line 38: BASELINES.topicChangeCost.unrelated. -/
def BASELINES.topicChangeCost_unrelated : ℚ := 1.0

/-- logic.js line 41: BASELINES.gapTimeDampener bucket 0-5. -/
def BASELINES.gapTimeDampener_0_5 : ℚ := 1.0

/-- logic.js line 42: BASELINES.gapTimeDampener bucket 5-15. -/
def BASELINES.gapTimeDampener_5_15 : ℚ := 0.8

/-- logic.js line 43: BASELINES.gapTimeDampener bucket 15-30. -/
def BASELINES.gapTimeDampener_15_30 : ℚ := 0.5

/-- logic.js line 44: BASELINES.gapTimeDampener bucket 30+. -/
def BASELINES.gapTimeDampener_30plus : ℚ := 0.2

/-- logic.js lines 46-51: BASELINES.timeOfDayMultiplier, as a key lookup. -/
def BASELINES.timeOfDayMultiplier (s : String) : Option ℚ :=
  if s = "morning" then some 1.0
  else if s = "midday" then some 1.1
  else if s = "afternoon" then some 1.2
  else if s = "evening" then some 1.4
  else none

/-- The classification attached to an event entering the scoring pipeline
(the shape produced by the adapter and declared by the web client types). -/
structure Classification where
  meeting_type : String
  role : String
  emotional_intensity : String
  topic_tags : List String

/-- A classified calendar event as consumed by the scoring pipeline.
`start` and `end` are the parsed instants in epoch milliseconds; `none`
models a missing or unparseable instant, i.e. an Invalid Date whose
numeric value is NaN.  `attendeeCount` is optional in the raw data. -/
structure Event where
  start : Option ℚ
  «end» : Option ℚ
  attendeeCount : Option ℚ
  classification : Classification

/-- The explanation record assembled in logic.js lines 198-207. -/
structure Explanation where
  complexity : ℚ
  roleLoad : ℚ
  emotionalLoad : ℚ
  socialLoad : ℚ
  mentalLoad : Option ℚ
  contextSwitchCost : ℚ
  timeOfDayMultiplier : ℚ
  topicTags : List String

/-- A scored event: the input event spread together with the derived
fields of logic.js lines 188-208, plus the `capacityRemaining` attached
by the sequencer (lines 154-157); `none` before attachment. -/
structure Scored extends Event where
  durationMinutes : Option ℚ
  mentalLoad : Option ℚ
  contextSwitchCost : ℚ
  totalLoad : Option ℚ
  recoveryMinutes : Option ℚ
  timeOfDay : String
  socialLoad : ℚ
  capacityCost : Option ℚ
  capacityRemaining : Option ℚ
  explanation : Explanation

/-- logic.js lines 230-235: mapGapDampener.  The argument may be NaN
(in which case every bound check is false and the 30+ bucket wins). -/
def mapGapDampener (minutes : Option ℚ) : ℚ :=
  if jleB minutes 5 then BASELINES.gapTimeDampener_0_5
  else if jleB minutes 15 then BASELINES.gapTimeDampener_5_15
  else if jleB minutes 30 then BASELINES.gapTimeDampener_15_30
  else BASELINES.gapTimeDampener_30plus

/-- logic.js lines 237-243: mapSocialLoad. -/
def mapSocialLoad (attendees : ℚ) : ℚ :=
  if attendees ≤ 2 then BASELINES.socialLoad_1_2
  else if attendees ≤ 5 then BASELINES.socialLoad_3_5
  else if attendees ≤ 10 then BASELINES.socialLoad_6_10
  else if attendees ≤ 20 then BASELINES.socialLoad_11_20
  else BASELINES.socialLoad_20plus

/-- `date.getHours()` for a date given in epoch milliseconds (local time
taken as UTC); NaN for an Invalid Date. -/
def jsGetHours (date : Option ℚ) : Option ℤ :=
  date.map (fun ms => (⌊ms / 3600000⌋ : ℤ) % 24)

/-- logic.js lines 245-251: getTimeOfDay.  On an Invalid Date every
comparison with the NaN hour is false, so the result is "evening". -/
def getTimeOfDay (date : Option ℚ) : String :=
  if jltIntB (jsGetHours date) 12 then "morning"
  else if jltIntB (jsGetHours date) 15 then "midday"
  else if jltIntB (jsGetHours date) 18 then "afternoon"
  else "evening"

/-- logic.js lines 211-228: computeContextSwitch.  Returns 0 when there
is no previous scored event; otherwise a clamped product of the binary
topic-overlap cost and the gap-time dampener.  Never NaN: a NaN gap
falls through every bucket test to the 30+ dampener. -/
def computeContextSwitch (event : Event) (prev : Option Scored) : ℚ :=
  match prev with
  | none => 0
  | some p =>
    let overlap := event.classification.topic_tags.any
      (fun tag => p.classification.topic_tags.contains tag)
    let topicCost :=
      if overlap then BASELINES.topicChangeCost_related_domain
      else BASELINES.topicChangeCost_unrelated
    let gapMinutes := jmaxC 0 (jdivC (jsub event.start p.«end») 60000)
    let gapDampener := mapGapDampener gapMinutes
    clamp (topicCost * gapDampener)

/-- logic.js lines 163-209: computeSingleEvent. -/
def computeSingleEvent (event : Event) (prev : Option Scored) : Scored :=
  let durationMinutes := jmaxC 15 (jdivC (jsub event.«end» event.start) 60000)
  let complexity := (BASELINES.meetingType event.classification.meeting_type).getD 0.3
  let roleLoad := (BASELINES.roleLoad event.classification.role).getD 0.5
  let emotionalLoad := (BASELINES.emotionalLoad event.classification.emotional_intensity).getD 0.4
  let mentalLoadRaw :=
    jmulC (jdivC durationMinutes 60)
      (0.4 * complexity + 0.3 * roleLoad + 0.3 * emotionalLoad)
  let mentalLoad := jclamp mentalLoadRaw
  let contextSwitchCost := computeContextSwitch event prev
  let totalLoad := jclamp (jaddC mentalLoad contextSwitchCost)
  let timeOfDay := getTimeOfDay event.start
  let recoveryMinutes :=
    jmulC totalLoad (20 * jsOrQ (BASELINES.timeOfDayMultiplier timeOfDay) 1.0)
  let socialLoad := mapSocialLoad (jsOrQ event.attendeeCount 1)
  let capacityCost := jmulC totalLoad 100
  { toEvent := event
    durationMinutes := durationMinutes
    mentalLoad := mentalLoad
    contextSwitchCost := contextSwitchCost
    totalLoad := totalLoad
    recoveryMinutes := recoveryMinutes
    timeOfDay := timeOfDay
    socialLoad := socialLoad
    capacityCost := capacityCost
    capacityRemaining := none
    explanation :=
      { complexity := complexity
        roleLoad := roleLoad
        emotionalLoad := emotionalLoad
        socialLoad := socialLoad
        mentalLoad := mentalLoad
        contextSwitchCost := contextSwitchCost
        timeOfDayMultiplier := jsOrQ (BASELINES.timeOfDayMultiplier timeOfDay) 1.0
        topicTags := event.classification.topic_tags } }

/-- logic.js lines 144-161 (loop body): the sequential fold of
computeEventLoads, threading the previous scored event and the running
capacity (Math.max(0, running - capacityCost) at each step). -/
def computeEventLoadsGo : Option Scored → Option ℚ → List Event → List Scored
  | _, _, [] => []
  | prev, running, event :: rest =>
    let computed := computeSingleEvent event prev
    let next := jmaxC 0 (jsub running computed.capacityCost)
    let scored := { computed with capacityRemaining := next }
    scored :: computeEventLoadsGo (some scored) next rest

/-- logic.js lines 144-161: computeEventLoads, starting from capacity 100
and no previous event. -/
def computeEventLoads (events : List Event) : List Scored :=
  computeEventLoadsGo none (some 100) events

/-- The daily summary shape of logic.js lines 263-267. -/
structure DailySummary where
  totalLoad : Option ℚ
  capacityRemaining : Option ℚ
  highRisk : Bool

/-- logic.js lines 257-268: buildDailySummary. -/
def buildDailySummary (events : List Scored) : DailySummary :=
  let totalLoad :=
    jclamp (jdivC (events.foldl (fun sum event => jadd sum event.totalLoad) (some 0))
      ((max events.length 1 : ℕ) : ℚ))
  let capacityRemaining :=
    jmaxC 0 (jsub (some 100)
      (events.foldl (fun sum e => jadd sum e.capacityCost) (some 0)))
  { totalLoad := totalLoad
    capacityRemaining := capacityRemaining
    highRisk := jltB capacityRemaining 20 }

/-- The two consecutive 60-minute events of the spec example: standup /
listener / routine / ["infra"] from 9:00 to 10:00, then decision /
decision_maker / conflict / ["product"] from 10:00 to 11:00, 2 attendees
each, back to back. -/
def exampleEvent1 : Event :=
  { start := some 32400000
    «end» := some 36000000
    attendeeCount := some 2
    classification :=
      { meeting_type := "standup"
        role := "listener"
        emotional_intensity := "routine"
        topic_tags := ["infra"] } }

/-- Second event of the spec example. -/
def exampleEvent2 : Event :=
  { start := some 36000000
    «end» := some 39600000
    attendeeCount := some 2
    classification :=
      { meeting_type := "decision"
        role := "decision_maker"
        emotional_intensity := "conflict"
        topic_tags := ["product"] } }

lemma meetingType_standup : BASELINES.meetingType "standup" = some 0.2 := rfl

lemma meetingType_decision : BASELINES.meetingType "decision" = some 0.9 := rfl

lemma roleLoad_listener : BASELINES.roleLoad "listener" = some 0.3 := rfl

lemma roleLoad_decision_maker : BASELINES.roleLoad "decision_maker" = some 1.0 := rfl

lemma emotionalLoad_routine : BASELINES.emotionalLoad "routine" = some 0.2 := rfl

lemma emotionalLoad_conflict : BASELINES.emotionalLoad "conflict" = some 1.0 := rfl

lemma timeOfDayMultiplier_morning : BASELINES.timeOfDayMultiplier "morning" = some 1.0 := rfl

lemma getTimeOfDay_9am : getTimeOfDay (some 32400000) = "morning" := by
  norm_num [getTimeOfDay, jsGetHours, jltIntB]

lemma getTimeOfDay_10am : getTimeOfDay (some 36000000) = "morning" := by
  norm_num [getTimeOfDay, jsGetHours, jltIntB]

/-- The tag "product" differs from the tag "infra": the two example events share no topic tag. -/
lemma product_ne_infra : ("product" : String) ≠ "infra" := by decide

set_option maxHeartbeats 2000000 in
/-- C2 counterexample: on the spec example input, the first event's
mentalLoad is 0.23 (not the claimed 0.29: 0.4*0.2 + 0.3*0.3 + 0.3*0.2 =
0.23) and the second event's mentalLoad is 0.96 (not the claimed 1.0:
the decision complexity baseline is 0.9, not 1.0). -/
theorem claimC2_counterexample :
    (computeEventLoads [exampleEvent1, exampleEvent2]).map Scored.mentalLoad
      = [some 0.23, some 0.96] ∧ (0.23 : ℚ) ≠ 0.29 ∧ (0.96 : ℚ) ≠ 1 := by
  refine ⟨?_, by norm_num, by norm_num⟩
  norm_num [computeEventLoads, computeEventLoadsGo, computeSingleEvent,
    computeContextSwitch, exampleEvent1, exampleEvent2, jsub, jadd, jdivC, jmulC,
    jaddC, jmaxC, jclamp, clamp, toFixed3, jleB, jsOrQ, mapGapDampener,
    mapSocialLoad, jltIntB, meetingType_standup, meetingType_decision,
    roleLoad_listener, roleLoad_decision_maker, emotionalLoad_routine,
    emotionalLoad_conflict, getTimeOfDay_9am, getTimeOfDay_10am,
    timeOfDayMultiplier_morning, product_ne_infra, BASELINES.gapTimeDampener_0_5,
    BASELINES.topicChangeCost_related_domain, BASELINES.topicChangeCost_unrelated,
    BASELINES.socialLoad_1_2]

set_option maxHeartbeats 2000000 in
/-- C2 (amended): on the spec example input, the first event has
mentalLoad 0.23 and contextSwitchCost 0; the second event has no topic
overlap with the first, so the unrelated topic cost 1.0 applies, the
0-minute gap selects the 0-5 bucket dampener 1.0, and the second event
has contextSwitchCost 1.0, mentalLoad 0.96, totalLoad 1.0 and
capacityCost 100. -/
theorem claimC2_amended :
    ((computeEventLoads [exampleEvent1, exampleEvent2]).map fun s =>
        (s.mentalLoad, s.contextSwitchCost, s.totalLoad, s.capacityCost))
      = [(some 0.23, 0, some 0.23, some 23), (some 0.96, 1, some 1, some 100)] ∧
    (exampleEvent2.classification.topic_tags.any
      (fun tag => exampleEvent1.classification.topic_tags.contains tag)) = false ∧
    BASELINES.topicChangeCost_unrelated = 1.0 ∧
    mapGapDampener (jmaxC 0 (jdivC (jsub exampleEvent2.start exampleEvent1.«end») 60000))
      = BASELINES.gapTimeDampener_0_5 ∧
    BASELINES.gapTimeDampener_0_5 = 1.0 := by
  refine ⟨?_, by decide, rfl, ?_, rfl⟩
  · norm_num [computeEventLoads, computeEventLoadsGo, computeSingleEvent,
      computeContextSwitch, exampleEvent1, exampleEvent2, jsub, jadd, jdivC, jmulC,
      jaddC, jmaxC, jclamp, clamp, toFixed3, jleB, jsOrQ, mapGapDampener,
      mapSocialLoad, jltIntB, meetingType_standup, meetingType_decision,
      roleLoad_listener, roleLoad_decision_maker, emotionalLoad_routine,
      emotionalLoad_conflict, getTimeOfDay_9am, getTimeOfDay_10am,
      timeOfDayMultiplier_morning, product_ne_infra, BASELINES.gapTimeDampener_0_5,
      BASELINES.topicChangeCost_related_domain, BASELINES.topicChangeCost_unrelated,
      BASELINES.socialLoad_1_2]
  · norm_num [exampleEvent1, exampleEvent2, jsub, jdivC, jmaxC, mapGapDampener, jleB]

/-- An event whose start instant is missing: `new Date(undefined)` is an
Invalid Date, so the subtraction end - start is NaN. -/
def eventNoStart : Event :=
  { start := none
    «end» := some 3600000
    attendeeCount := some 2
    classification :=
      { meeting_type := "status"
        role := "contributor"
        emotional_intensity := "routine"
        topic_tags := ["general"] } }

/-- An event whose end precedes its start by one hour. -/
def eventBackwards : Event :=
  { start := some 7200000
    «end» := some 3600000
    attendeeCount := some 2
    classification :=
      { meeting_type := "status"
        role := "contributor"
        emotional_intensity := "routine"
        topic_tags := ["general"] } }

/-- C6: the scorer turns an end-before-start event into the 15-minute
floor, but an event with a missing start instant yields durationMinutes
NaN (Math.max(15, NaN) = NaN), which then poisons mentalLoad — the code
does not resolve a missing instant to the 15-minute floor as the spec
requires. -/
theorem claimC6_eval :
    (computeSingleEvent eventNoStart none).durationMinutes = none ∧
    (computeSingleEvent eventNoStart none).mentalLoad = none ∧
    (computeSingleEvent eventBackwards none).durationMinutes = some 15 := by
  refine ⟨rfl, rfl, ?_⟩
  norm_num [computeSingleEvent, eventBackwards, jsub, jdivC, jmaxC]

/-- C9: the sequencer maps the empty schedule to the empty list, and the
daily summary of an empty list is totalLoad 0, capacityRemaining 100,
highRisk false. -/
theorem claimC9_empty :
    computeEventLoads [] = [] ∧
    buildDailySummary [] =
      { totalLoad := some 0, capacityRemaining := some 100, highRisk := false } := by
  constructor
  · rfl
  · norm_num [buildDailySummary, jclamp, jdivC, jsub, jadd, jmaxC, clamp, toFixed3, jltB]

/-- C10: the gap-time buckets are upper-inclusive: a gap of exactly 5
minutes selects the 0-5 dampener 1.0, exactly 15 the 5-15 dampener 0.8,
exactly 30 the 15-30 dampener 0.5, and any gap strictly above 30 the 30+
dampener 0.2. -/
theorem claimC10_gapBuckets :
    mapGapDampener (some 5) = BASELINES.gapTimeDampener_0_5 ∧
    mapGapDampener (some 15) = BASELINES.gapTimeDampener_5_15 ∧
    mapGapDampener (some 30) = BASELINES.gapTimeDampener_15_30 ∧
    BASELINES.gapTimeDampener_0_5 = 1.0 ∧
    BASELINES.gapTimeDampener_5_15 = 0.8 ∧
    BASELINES.gapTimeDampener_15_30 = 0.5 ∧
    BASELINES.gapTimeDampener_30plus = 0.2 ∧
    ∀ m : ℚ, 30 < m → mapGapDampener (some m) = BASELINES.gapTimeDampener_30plus := by
  refine ⟨?_, ?_, ?_, rfl, rfl, rfl, rfl, ?_⟩
  · norm_num [mapGapDampener, jleB]
  · norm_num [mapGapDampener, jleB]
  · norm_num [mapGapDampener, jleB]
  · intro m hm
    have h5 : ¬ m ≤ 5 := by linarith
    have h15 : ¬ m ≤ 15 := by linarith
    have h30 : ¬ m ≤ 30 := by linarith
    simp [mapGapDampener, jleB, h5, h15, h30]

/-- C10 witness: a 31-minute gap is strictly above 30 and selects the
30+ dampener. -/
theorem claimC10_witness :
    (30 : ℚ) < 31 ∧ mapGapDampener (some 31) = BASELINES.gapTimeDampener_30plus :=
  ⟨by norm_num, claimC10_gapBuckets.2.2.2.2.2.2.2 31 (by norm_num)⟩

/-- The relation the sequencer establishes between consecutive scored
events: the later event's contextSwitchCost is the clamped product of
the binary topic-overlap cost (related_domain on any shared tag,
unrelated otherwise) and the gap-time dampener. -/
def switchSpec (a b : Scored) : Prop :=
  b.contextSwitchCost =
    clamp ((if b.classification.topic_tags.any
          (fun tag => a.classification.topic_tags.contains tag)
        then BASELINES.topicChangeCost_related_domain
        else BASELINES.topicChangeCost_unrelated) *
      mapGapDampener (jmaxC 0 (jdivC (jsub b.start a.«end») 60000)))

/-- Unfolding of one step of the sequencer fold. -/
lemma go_cons (prev : Option Scored) (r : Option ℚ) (e : Event) (rest : List Event) :
    computeEventLoadsGo prev r (e :: rest)
      = { computeSingleEvent e prev with
          capacityRemaining := jmaxC 0 (jsub r (computeSingleEvent e prev).capacityCost) }
        :: computeEventLoadsGo
            (some { computeSingleEvent e prev with
                    capacityRemaining :=
                      jmaxC 0 (jsub r (computeSingleEvent e prev).capacityCost) })
            (jmaxC 0 (jsub r (computeSingleEvent e prev).capacityCost)) rest := rfl

/-- Every adjacent pair of the fold output satisfies switchSpec. -/
lemma go_chain (evs : List Event) : ∀ (prev : Option Scored) (r : Option ℚ),
    List.Chain' switchSpec (computeEventLoadsGo prev r evs) := by
  induction evs with
  | nil => intro prev r; simp [computeEventLoadsGo]
  | cons e rest ih =>
    intro prev r
    rw [go_cons]
    refine List.chain'_cons'.mpr ⟨?_, ih _ _⟩
    intro b hb
    cases rest with
    | nil => simp [computeEventLoadsGo] at hb
    | cons e2 rest2 =>
      rw [go_cons] at hb
      simp only [List.head?_cons, Option.mem_def, Option.some.injEq] at hb
      subst hb
      rfl

/-- C7: the first scored event's contextSwitchCost is 0; every later
event's contextSwitchCost is the clamped product of the binary topic
cost — related_domain (0.3) on any shared tag with the previous scored
event, unrelated (1.0) otherwise, never same_project (0.0) or
different_domain (0.7) — and the gap dampener. -/
theorem claimC7_contextSwitch (evs : List Event) :
    ((computeEventLoads evs).head?.map Scored.contextSwitchCost)
      = ((computeEventLoads evs).head?.map fun _ => 0) ∧
    List.Chain' switchSpec (computeEventLoads evs) ∧
    BASELINES.topicChangeCost_related_domain = 0.3 ∧
    BASELINES.topicChangeCost_unrelated = 1.0 ∧
    BASELINES.topicChangeCost_same_project = 0.0 ∧
    BASELINES.topicChangeCost_different_domain = 0.7 := by
  refine ⟨?_, go_chain evs none (some 100), rfl, rfl, rfl, rfl⟩
  cases evs with
  | nil => rfl
  | cons e rest => rfl

/-- "nonneg or NaN": every defined value of the option is nonnegative. -/
def NN (o : Option ℚ) : Prop := ∀ q, o = some q → 0 ≤ q

lemma clamp_nonneg (v : ℚ) : 0 ≤ clamp v := le_max_left 0 _

lemma clamp_le_one (v : ℚ) : clamp v ≤ 1 := max_le (by norm_num) (min_le_left 1 _)

/-- The reduce of logic.js line 261: sum of capacityCost over a scored list. -/
def costSum (l : List Scored) : Option ℚ :=
  l.foldl (fun sum e => jadd sum e.capacityCost) (some 0)

lemma buildDailySummary_cap (l : List Scored) :
    (buildDailySummary l).capacityRemaining = jmaxC 0 (jsub (some 100) (costSum l)) := rfl

lemma jadd_comm (a b : Option ℚ) : jadd a b = jadd b a := by
  cases a <;> cases b <;> simp [jadd, add_comm]

lemma jadd_right_comm (a b c : Option ℚ) : jadd (jadd a b) c = jadd (jadd a c) b := by
  cases a <;> cases b <;> cases c <;> simp [jadd, add_right_comm]

lemma foldl_jadd_shift (l : List Scored) : ∀ a b : Option ℚ,
    l.foldl (fun sum e => jadd sum e.capacityCost) (jadd a b)
      = jadd b (l.foldl (fun sum e => jadd sum e.capacityCost) a) := by
  induction l with
  | nil => intro a b; simpa [List.foldl] using jadd_comm a b
  | cons x l ih =>
    intro a b
    simp only [List.foldl]
    rw [jadd_right_comm]
    exact ih (jadd a x.capacityCost) b

lemma costSum_cons (s : Scored) (l : List Scored) :
    costSum (s :: l) = jadd s.capacityCost (costSum l) := by
  unfold costSum
  simp only [List.foldl]
  exact foldl_jadd_shift l (some 0) s.capacityCost

lemma NN_jmax0 (o : Option ℚ) : NN (jmaxC 0 o) := by
  intro q hq
  cases o with
  | none => simp [jmaxC] at hq
  | some v =>
    simp [jmaxC] at hq
    rw [← hq]
    exact le_max_left 0 v

lemma capacityCost_NN (e : Event) (prev : Option Scored) :
    NN (computeSingleEvent e prev).capacityCost := by
  intro q hq
  have h : (computeSingleEvent e prev).capacityCost
      = jmulC (jclamp (jaddC (computeSingleEvent e prev).mentalLoad
          (computeSingleEvent e prev).contextSwitchCost)) 100 := rfl
  rw [h] at hq
  rcases hm : jaddC (computeSingleEvent e prev).mentalLoad
      (computeSingleEvent e prev).contextSwitchCost with _ | v
  · rw [hm] at hq; simp [jmulC, jclamp] at hq
  · rw [hm] at hq
    simp [jmulC, jclamp] at hq
    rw [← hq]
    exact mul_nonneg (clamp_nonneg v) (by norm_num)

/-- Every element of the fold output is a computeSingleEvent result with
an overridden capacityRemaining. -/
lemma mem_go {s : Scored} : ∀ {evs : List Event} {prev : Option Scored} {r : Option ℚ},
    s ∈ computeEventLoadsGo prev r evs →
    ∃ e ∈ evs, ∃ p r2, s = { computeSingleEvent e p with capacityRemaining := r2 } := by
  intro evs
  induction evs with
  | nil => intro prev r h; simp [computeEventLoadsGo] at h
  | cons e rest ih =>
    intro prev r h
    rw [go_cons] at h
    rcases List.mem_cons.mp h with h1 | h2
    · exact ⟨e, List.mem_cons_self e rest, prev, _, h1⟩
    · obtain ⟨e2, he2, p, r2, hs⟩ := ih h2
      exact ⟨e2, List.mem_cons_of_mem e he2, p, r2, hs⟩

lemma go_cost_NN {evs : List Event} {prev : Option Scored} {r : Option ℚ} {s : Scored}
    (hs : s ∈ computeEventLoadsGo prev r evs) : NN s.capacityCost := by
  obtain ⟨e, -, p, r2, rfl⟩ := mem_go hs
  exact capacityCost_NN e p

lemma jadd_NN {a b : Option ℚ} (ha : NN a) (hb : NN b) : NN (jadd a b) := by
  intro q hq
  cases a with
  | none => simp [jadd] at hq
  | some x =>
    cases b with
    | none => simp [jadd] at hq
    | some y =>
      simp [jadd] at hq
      rw [← hq]
      exact add_nonneg (ha x rfl) (hb y rfl)

lemma costSum_NN (l : List Scored) (h : ∀ s ∈ l, NN s.capacityCost) : NN (costSum l) := by
  induction l with
  | nil => intro q hq; simp [costSum] at hq; rw [← hq]
  | cons s l ih =>
    rw [costSum_cons]
    exact jadd_NN (h s (List.mem_cons_self s l))
      (ih fun s2 hs2 => h s2 (List.mem_cons_of_mem s hs2))

/-- Folding Math.max(0, - ) through one subtraction step agrees with
subtracting the sum, for nonnegative (or NaN) costs. -/
lemma jmax0_sub_sub (r c S : Option ℚ) (hc : NN c) (hS : NN S) :
    jmaxC 0 (jsub (jmaxC 0 (jsub r c)) S) = jmaxC 0 (jsub r (jadd c S)) := by
  cases r with
  | none => cases c <;> cases S <;> simp [jsub, jadd, jmaxC]
  | some x =>
    cases c with
    | none => cases S <;> simp [jsub, jadd, jmaxC]
    | some cv =>
      cases S with
      | none => simp [jsub, jadd, jmaxC]
      | some sv =>
        have hcv := hc cv rfl
        have hsv := hS sv rfl
        simp only [jsub, jadd, jmaxC, Option.map_some']
        rcases le_total (x - cv) 0 with h | h
        · rw [max_eq_left h, zero_sub, max_eq_left (neg_nonpos.mpr hsv),
            max_eq_left (by linarith : x - (cv + sv) ≤ 0)]
        · rw [max_eq_right h, show x - cv - sv = x - (cv + sv) by ring]

/-- The capacityRemaining of the last element of the fold output equals
Math.max(0, r - sum of all the output's capacityCost); for an empty
output it is the starting value r. -/
lemma go_last_cap (evs : List Event) : ∀ (prev : Option Scored) (r : Option ℚ), NN r →
    (((computeEventLoadsGo prev r evs).getLast?).map Scored.capacityRemaining).getD r
      = jmaxC 0 (jsub r (costSum (computeEventLoadsGo prev r evs))) := by
  induction evs with
  | nil =>
    intro prev r hr
    cases r with
    | none => simp [computeEventLoadsGo, costSum, jsub, jmaxC]
    | some x =>
      simp only [computeEventLoadsGo, List.getLast?, Option.map_none', Option.getD_none,
        costSum, List.foldl, jsub, jmaxC, Option.map_some', sub_zero]
      rw [max_eq_right (hr x rfl)]
  | cons e rest ih =>
    intro prev r hr
    rw [go_cons]
    set c := (computeSingleEvent e prev).capacityCost with hc
    set r1 := jmaxC 0 (jsub r c) with hr1
    set s1 := { computeSingleEvent e prev with capacityRemaining := r1 } with hs1
    have hs1cap : s1.capacityRemaining = r1 := by rw [hs1]
    have hs1cost : s1.capacityCost = c := by rw [hs1, hc]
    cases hrest : computeEventLoadsGo (some s1) r1 rest with
    | nil =>
      simp only [List.getLast?_singleton, Option.map_some', Option.getD_some]
      rw [hr1]
      conv_rhs => rw [costSum_cons]
      rw [hs1cost]
      have hcs0 : costSum ([] : List Scored) = some 0 := rfl
      rw [hcs0]
      cases c with
      | none => simp [jadd, jsub, jmaxC]
      | some cv => simp [jadd, jsub, jmaxC]
    | cons s2 tl =>
      have IH := ih (some s1) r1 (NN_jmax0 _)
      rw [hrest] at IH
      obtain ⟨last, hlast⟩ := Option.isSome_iff_exists.mp
        (List.getLast?_isSome.mpr (List.cons_ne_nil s2 tl))
      rw [List.getLast?_cons_cons, hlast]
      rw [hlast] at IH
      simp only [Option.map_some', Option.getD_some] at IH ⊢
      rw [IH, hr1]
      conv_rhs => rw [costSum_cons]
      rw [hs1cost]
      refine jmax0_sub_sub r c (costSum (s2 :: tl)) ?_ ?_
      · rw [hc]; exact capacityCost_NN e prev
      · refine costSum_NN (s2 :: tl) ?_
        intro s hs
        rw [← hrest] at hs
        exact go_cost_NN hs

/-- C3: the aggregator's capacityRemaining, computed independently as
Math.max(0, 100 - sum of capacityCost), always equals the last scored
event's per-step capacityRemaining (and is 100 for an empty list). -/
theorem claimC3_capacityAgree (evs : List Event) :
    (buildDailySummary (computeEventLoads evs)).capacityRemaining
      = (((computeEventLoads evs).getLast?).map Scored.capacityRemaining).getD (some 100) := by
  have h100 : NN (some (100 : ℚ)) := by
    intro q hq
    simp only [Option.some.injEq] at hq
    rw [← hq]
    norm_num
  have h := go_last_cap evs none (some 100) h100
  rw [buildDailySummary_cap]
  exact h.symm

lemma jclamp_in01 {o : Option ℚ} (h : o.isSome) :
    ∃ q, jclamp o = some q ∧ 0 ≤ q ∧ q ≤ 1 := by
  obtain ⟨v, hv⟩ := Option.isSome_iff_exists.mp h
  rw [hv]
  exact ⟨clamp v, rfl, clamp_nonneg v, clamp_le_one v⟩

lemma durationMinutes_eq (e : Event) (prev : Option Scored) :
    (computeSingleEvent e prev).durationMinutes
      = jmaxC 15 (jdivC (jsub e.«end» e.start) 60000) := rfl

lemma mentalLoad_eq (e : Event) (prev : Option Scored) :
    (computeSingleEvent e prev).mentalLoad
      = jclamp (jmulC (jdivC (computeSingleEvent e prev).durationMinutes 60)
          (0.4 * (BASELINES.meetingType e.classification.meeting_type).getD 0.3
            + 0.3 * (BASELINES.roleLoad e.classification.role).getD 0.5
            + 0.3 * (BASELINES.emotionalLoad e.classification.emotional_intensity).getD 0.4)) :=
  rfl

lemma totalLoad_eq (e : Event) (prev : Option Scored) :
    (computeSingleEvent e prev).totalLoad
      = jclamp (jaddC (computeSingleEvent e prev).mentalLoad
          (computeSingleEvent e prev).contextSwitchCost) := rfl

lemma duration_isSome (e : Event) (prev : Option Scored) (h1 : e.start.isSome)
    (h2 : e.«end».isSome) : ((computeSingleEvent e prev).durationMinutes).isSome := by
  obtain ⟨a, ha⟩ := Option.isSome_iff_exists.mp h1
  obtain ⟨b, hb⟩ := Option.isSome_iff_exists.mp h2
  rw [durationMinutes_eq, ha, hb]
  rfl

lemma mentalLoad_in01 (e : Event) (prev : Option Scored) (h1 : e.start.isSome)
    (h2 : e.«end».isSome) :
    ∃ q, (computeSingleEvent e prev).mentalLoad = some q ∧ 0 ≤ q ∧ q ≤ 1 := by
  rw [mentalLoad_eq]
  apply jclamp_in01
  simp only [jmulC, jdivC, Option.isSome_map']
  exact duration_isSome e prev h1 h2

lemma totalLoad_in01 (e : Event) (prev : Option Scored) (h1 : e.start.isSome)
    (h2 : e.«end».isSome) :
    ∃ q, (computeSingleEvent e prev).totalLoad = some q ∧ 0 ≤ q ∧ q ≤ 1 := by
  rw [totalLoad_eq]
  apply jclamp_in01
  obtain ⟨q, hq, -, -⟩ := mentalLoad_in01 e prev h1 h2
  simp only [jaddC, Option.isSome_map']
  rw [hq]
  rfl

lemma capacityCost_of_instants (e : Event) (prev : Option Scored) (h1 : e.start.isSome)
    (h2 : e.«end».isSome) :
    ∃ c, (computeSingleEvent e prev).capacityCost = some c ∧ 0 ≤ c := by
  obtain ⟨q, hq, hq0, -⟩ := totalLoad_in01 e prev h1 h2
  refine ⟨q * 100, ?_, mul_nonneg hq0 (by norm_num)⟩
  have h : (computeSingleEvent e prev).capacityCost
      = jmulC ((computeSingleEvent e prev).totalLoad) 100 := rfl
  rw [h, hq]
  rfl

/-- The running capacity attached by the fold, started from a
nonnegative budget over events with both instants present, is a
non-increasing sequence of nonnegative defined values. -/
lemma go_cap_chain (evs : List Event) : ∀ (prev : Option Scored) (x : ℚ), 0 ≤ x →
    (∀ e ∈ evs, e.start.isSome ∧ e.«end».isSome) →
    ∃ qs : List ℚ,
      (computeEventLoadsGo prev (some x) evs).map Scored.capacityRemaining = qs.map some ∧
      List.Chain' (fun a b => b ≤ a) (x :: qs) ∧ ∀ q ∈ qs, 0 ≤ q := by
  induction evs with
  | nil =>
    intro prev x hx h
    exact ⟨[], by simp [computeEventLoadsGo], by simp, by simp⟩
  | cons e rest ih =>
    intro prev x hx h
    obtain ⟨c, hc, hc0⟩ := capacityCost_of_instants e prev
      (h e (List.mem_cons_self e rest)).1 (h e (List.mem_cons_self e rest)).2
    rw [go_cons, hc]
    have hr1 : jmaxC 0 (jsub (some x) (some c)) = some (max 0 (x - c)) := rfl
    rw [hr1]
    obtain ⟨qs, hmap, hchain, hpos⟩ := ih
      (some { computeSingleEvent e prev with capacityRemaining := some (max 0 (x - c)) })
      (max 0 (x - c)) (le_max_left _ _)
      (fun e2 he2 => h e2 (List.mem_cons_of_mem e he2))
    refine ⟨max 0 (x - c) :: qs, ?_, ?_, ?_⟩
    · simp only [List.map_cons]
      rw [hmap]
    · refine List.chain'_cons.mpr ⟨max_le hx (by linarith), hchain⟩
    · intro q hq
      rcases List.mem_cons.mp hq with h1 | h2
      · rw [h1]; exact le_max_left 0 (x - c)
      · exact hpos q h2

/-- C4 counterexample: on an event list containing an event with a
missing start instant, the attached capacityRemaining is NaN, and the
JS test capacityRemaining >= 0 is false for it. -/
theorem claimC4_counterexample :
    (computeEventLoads [eventNoStart]).map Scored.capacityRemaining = [none] ∧
    (computeEventLoads [eventNoStart]).map (fun s => jgeB s.capacityRemaining 0)
      = [false] :=
  ⟨rfl, rfl⟩

/-- C4 (amended): for every input list of events whose start and end
instants are both present, the capacityRemaining values attached by the
sequencer are all defined and nonnegative and form a non-increasing
sequence starting from the budget 100. -/
theorem claimC4_amended (evs : List Event)
    (h : ∀ e ∈ evs, e.start.isSome ∧ e.«end».isSome) :
    ∃ qs : List ℚ,
      (computeEventLoads evs).map Scored.capacityRemaining = qs.map some ∧
      List.Chain' (fun a b => b ≤ a) (100 :: qs) ∧ ∀ q ∈ qs, 0 ≤ q :=
  go_cap_chain evs none 100 (by norm_num) h

/-- C4 witness: the amended invariant at the concrete two-event example. -/
theorem claimC4_witness :
    ∃ qs : List ℚ,
      (computeEventLoads [exampleEvent1, exampleEvent2]).map Scored.capacityRemaining
        = qs.map some ∧
      List.Chain' (fun a b => b ≤ a) (100 :: qs) ∧ ∀ q ∈ qs, 0 ≤ q :=
  claimC4_amended [exampleEvent1, exampleEvent2] (by decide)

lemma meetingType_getD_in01 (s : String) :
    0 ≤ (BASELINES.meetingType s).getD 0.3 ∧ (BASELINES.meetingType s).getD 0.3 ≤ 1 := by
  unfold BASELINES.meetingType
  split_ifs <;> norm_num

lemma roleLoad_getD_in01 (s : String) :
    0 ≤ (BASELINES.roleLoad s).getD 0.5 ∧ (BASELINES.roleLoad s).getD 0.5 ≤ 1 := by
  unfold BASELINES.roleLoad
  split_ifs <;> norm_num

lemma emotionalLoad_getD_in01 (s : String) :
    0 ≤ (BASELINES.emotionalLoad s).getD 0.4 ∧ (BASELINES.emotionalLoad s).getD 0.4 ≤ 1 := by
  unfold BASELINES.emotionalLoad
  split_ifs <;> norm_num

lemma mapSocialLoad_in01 (a : ℚ) : 0 ≤ mapSocialLoad a ∧ mapSocialLoad a ≤ 1 := by
  unfold mapSocialLoad
  split_ifs <;> norm_num [BASELINES.socialLoad_1_2, BASELINES.socialLoad_3_5,
    BASELINES.socialLoad_6_10, BASELINES.socialLoad_11_20, BASELINES.socialLoad_20plus]

lemma contextSwitch_in01 (e : Event) (prev : Option Scored) :
    0 ≤ computeContextSwitch e prev ∧ computeContextSwitch e prev ≤ 1 := by
  cases prev with
  | none => norm_num [computeContextSwitch]
  | some p => exact ⟨clamp_nonneg _, clamp_le_one _⟩

/-- C5 (amended): for valid inputs (both instants present on every
event), every normalized field of every scored event lies in [0, 1]:
mentalLoad, contextSwitchCost, totalLoad, socialLoad, and the
complexity, roleLoad, emotionalLoad, socialLoad, mentalLoad and
contextSwitchCost factors of the explanation.  (The explanation's
timeOfDayMultiplier is excluded: it exceeds 1 outside the morning.) -/
theorem claimC5_amended (evs : List Event)
    (h : ∀ e ∈ evs, e.start.isSome ∧ e.«end».isSome) :
    ∀ s ∈ computeEventLoads evs,
      (∃ q, s.mentalLoad = some q ∧ 0 ≤ q ∧ q ≤ 1) ∧
      (0 ≤ s.contextSwitchCost ∧ s.contextSwitchCost ≤ 1) ∧
      (∃ q, s.totalLoad = some q ∧ 0 ≤ q ∧ q ≤ 1) ∧
      (0 ≤ s.socialLoad ∧ s.socialLoad ≤ 1) ∧
      (0 ≤ s.explanation.complexity ∧ s.explanation.complexity ≤ 1) ∧
      (0 ≤ s.explanation.roleLoad ∧ s.explanation.roleLoad ≤ 1) ∧
      (0 ≤ s.explanation.emotionalLoad ∧ s.explanation.emotionalLoad ≤ 1) ∧
      (0 ≤ s.explanation.socialLoad ∧ s.explanation.socialLoad ≤ 1) ∧
      (∃ q, s.explanation.mentalLoad = some q ∧ 0 ≤ q ∧ q ≤ 1) ∧
      (0 ≤ s.explanation.contextSwitchCost ∧ s.explanation.contextSwitchCost ≤ 1) := by
  intro s hs
  obtain ⟨e, he, p, r2, rfl⟩ := mem_go hs
  obtain ⟨h1, h2⟩ := h e he
  exact ⟨mentalLoad_in01 e p h1 h2, contextSwitch_in01 e p, totalLoad_in01 e p h1 h2,
    mapSocialLoad_in01 _, meetingType_getD_in01 _, roleLoad_getD_in01 _,
    emotionalLoad_getD_in01 _, mapSocialLoad_in01 _, mentalLoad_in01 e p h1 h2,
    contextSwitch_in01 e p⟩

/-- An event running 13:00-14:00, a valid input whose time of day is
midday. -/
def eventMidday : Event :=
  { start := some 46800000
    «end» := some 50400000
    attendeeCount := some 2
    classification :=
      { meeting_type := "status"
        role := "contributor"
        emotional_intensity := "routine"
        topic_tags := ["general"] } }

lemma getTimeOfDay_1pm : getTimeOfDay (some 46800000) = "midday" := by
  norm_num [getTimeOfDay, jsGetHours, jltIntB]

lemma timeOfDayMultiplier_midday : BASELINES.timeOfDayMultiplier "midday" = some 1.1 := rfl

/-- C5 counterexample: on a valid midday event, the explanation's
table-looked-up timeOfDayMultiplier is 1.1, which exceeds 1. -/
theorem claimC5_counterexample :
    eventMidday.start.isSome ∧ eventMidday.«end».isSome ∧
    (computeEventLoads [eventMidday]).map (fun s => s.explanation.timeOfDayMultiplier)
      = [1.1] ∧ ¬ ((1.1 : ℚ) ≤ 1) := by
  refine ⟨rfl, rfl, ?_, by norm_num⟩
  norm_num [computeEventLoads, computeEventLoadsGo, computeSingleEvent,
    eventMidday, getTimeOfDay_1pm, timeOfDayMultiplier_midday, jsOrQ]

/-- C5 witness: the amended bounds at the first scored event of the
concrete two-event example. -/
theorem claimC5_witness :
    ∃ s, (computeEventLoads [exampleEvent1, exampleEvent2]).head? = some s ∧
      ((∃ q, s.mentalLoad = some q ∧ 0 ≤ q ∧ q ≤ 1) ∧
      (0 ≤ s.contextSwitchCost ∧ s.contextSwitchCost ≤ 1) ∧
      (∃ q, s.totalLoad = some q ∧ 0 ≤ q ∧ q ≤ 1) ∧
      (0 ≤ s.socialLoad ∧ s.socialLoad ≤ 1) ∧
      (0 ≤ s.explanation.complexity ∧ s.explanation.complexity ≤ 1) ∧
      (0 ≤ s.explanation.roleLoad ∧ s.explanation.roleLoad ≤ 1) ∧
      (0 ≤ s.explanation.emotionalLoad ∧ s.explanation.emotionalLoad ≤ 1) ∧
      (0 ≤ s.explanation.socialLoad ∧ s.explanation.socialLoad ≤ 1) ∧
      (∃ q, s.explanation.mentalLoad = some q ∧ 0 ≤ q ∧ q ≤ 1) ∧
      (0 ≤ s.explanation.contextSwitchCost ∧ s.explanation.contextSwitchCost ≤ 1)) := by
  refine ⟨_, rfl, ?_⟩
  exact claimC5_amended [exampleEvent1, exampleEvent2] (by decide) _
    (List.mem_of_mem_head? (by rfl))

/-- A JSON value, the possible result of JSON.parse on the classifier
response text. -/
inductive JVal where
  | null : JVal
  | bool (b : Bool) : JVal
  | num (q : ℚ) : JVal
  | str (s : String) : JVal
  | arr (elems : List JVal) : JVal
  | obj (fields : List (String × JVal)) : JVal

/-- JS property read `parsed[key]`: a field of an object, undefined
otherwise (reading a property of null throws in JS, but that throw is
caught by the same try/catch that handles parse failure and produces the
fallback, the same outcome as undefined here). -/
def jget : JVal → String → Option JVal
  | JVal.obj fields, key => (fields.find? (fun p => p.fst == key)).map Prod.snd
  | _, _ => none

/-- JS truthiness of a possibly-undefined JSON value: undefined, null,
false, 0 and the empty string are falsy; arrays and objects are truthy. -/
def truthy : Option JVal → Bool
  | none => false
  | some JVal.null => false
  | some (JVal.bool b) => b
  | some (JVal.num q) => decide (q ≠ 0)
  | some (JVal.str s) => decide (s ≠ "")
  | some (JVal.arr _) => true
  | some (JVal.obj _) => true

/-- `Array.isArray(x) ? x : []` of logic.js line 128. -/
def jarrOrEmpty : Option JVal → List JVal
  | some (JVal.arr xs) => xs
  | _ => []

/-- A raw event as seen by the Classification Adapter: only the optional
hint fields that the fallback reads. -/
structure RawEvent where
  meetingType : Option String
  userRole : Option String
  emotionalIntensity : Option String
  topicTags : Option (List String)

/-- The classification value returned by the adapter.  The scalar fields
carry whatever JSON values the parsed response held (the fallback always
puts strings there); topic_tags is a JSON array's element list. -/
structure GClassification where
  meeting_type : JVal
  role : JVal
  emotional_intensity : JVal
  topic_tags : List JVal

/-- logic.js lines 135-142: fallbackClassification. -/
def fallbackClassification (event : RawEvent) : GClassification :=
  { meeting_type := JVal.str (jsOrStr event.meetingType "status")
    role := JVal.str (jsOrStr event.userRole "contributor")
    emotional_intensity := JVal.str (jsOrStr event.emotionalIntensity "routine")
    topic_tags := (event.topicTags.getD ["general"]).map JVal.str }

/-- logic.js lines 118-133: parseGeminiOutput.  The argument is the
JSON.parse result of the response text, or `none` when JSON.parse threw
(or a property read on a parsed null threw); both throws are caught and
produce the fallback. -/
def parseGeminiOutput (text : Option JVal) (event : RawEvent) : GClassification :=
  match text with
  | none => fallbackClassification event
  | some parsed =>
    if !truthy (jget parsed "meeting_type") || !truthy (jget parsed "role")
        || !truthy (jget parsed "emotional_intensity") then
      fallbackClassification event
    else
      { meeting_type := (jget parsed "meeting_type").getD JVal.null
        role := (jget parsed "role").getD JVal.null
        emotional_intensity := (jget parsed "emotional_intensity").getD JVal.null
        topic_tags := jarrOrEmpty (jget parsed "topic_tags") }

/-- C1 (amended): a parse failure or a missing/falsy scalar field falls
back; when all three scalar fields are truthy the parsed response is
accepted regardless of the shape of topic_tags, with topic_tags replaced
by the empty sequence whenever it is not a sequence. -/
theorem claimC1_validation (text : Option JVal) (event : RawEvent) :
    (text = none → parseGeminiOutput text event = fallbackClassification event) ∧
    (∀ parsed, text = some parsed →
      ((truthy (jget parsed "meeting_type") = false ∨
          truthy (jget parsed "role") = false ∨
          truthy (jget parsed "emotional_intensity") = false) →
        parseGeminiOutput text event = fallbackClassification event) ∧
      (truthy (jget parsed "meeting_type") = true →
        truthy (jget parsed "role") = true →
        truthy (jget parsed "emotional_intensity") = true →
        parseGeminiOutput text event =
          { meeting_type := (jget parsed "meeting_type").getD JVal.null
            role := (jget parsed "role").getD JVal.null
            emotional_intensity := (jget parsed "emotional_intensity").getD JVal.null
            topic_tags := jarrOrEmpty (jget parsed "topic_tags") })) := by
  refine ⟨fun h => by subst h; rfl, ?_⟩
  intro parsed h
  subst h
  constructor
  · intro hbad
    rcases hbad with hb | hb | hb <;> simp [parseGeminiOutput, hb]
  · intro hm hr he
    simp [parseGeminiOutput, hm, hr, he]

/-- The classifier response used as the concrete C1 input: all three
scalar fields present and truthy, topic_tags present but a string, not a
sequence. -/
def exampleResponse : JVal :=
  JVal.obj [("meeting_type", JVal.str "standup"), ("role", JVal.str "listener"),
    ("emotional_intensity", JVal.str "routine"), ("topic_tags", JVal.str "infra")]

/-- An event carrying no hint fields at all. -/
def eventNoHints : RawEvent :=
  { meetingType := none, userRole := none, emotionalIntensity := none, topicTags := none }

/-- C1 counterexample: a response whose topic_tags is present but not a
sequence is accepted (with topic_tags coerced to the empty sequence),
not replaced by the fallback classification as the claim states. -/
theorem claimC1_counterexample :
    jget exampleResponse "topic_tags" = some (JVal.str "infra") ∧
    (parseGeminiOutput (some exampleResponse) eventNoHints).topic_tags = [] ∧
    (fallbackClassification eventNoHints).topic_tags = [JVal.str "general"] ∧
    parseGeminiOutput (some exampleResponse) eventNoHints
      ≠ fallbackClassification eventNoHints := by
  refine ⟨rfl, rfl, rfl, ?_⟩
  intro h
  have h2 := congrArg (fun c => c.topic_tags.length) h
  simp only [List.length] at h2
  exact absurd h2 (by norm_num)

/-- C1 witness: on the concrete response with a non-sequence topic_tags,
the amended theorem yields acceptance with empty topic_tags. -/
theorem claimC1_witness :
    parseGeminiOutput (some exampleResponse) eventNoHints =
      { meeting_type := JVal.str "standup", role := JVal.str "listener",
        emotional_intensity := JVal.str "routine", topic_tags := [] } := by
  have h := ((claimC1_validation (some exampleResponse) eventNoHints).2
    exampleResponse rfl).2 rfl rfl rfl
  exact h

lemma jsOrStr_ne_empty (o : Option String) (d : String) (hd : d ≠ "") :
    jsOrStr o d ≠ "" := by
  cases o with
  | none => exact hd
  | some t =>
    by_cases ht : t = ""
    · simp [jsOrStr, ht]
      exact hd
    · simp [jsOrStr, ht]

/-- C8: the fallback always returns four populated fields — nonempty
strings for the three scalars, a list of strings for the tags — and
defaults to status / contributor / routine / ["general"] for whichever
hints are absent. -/
theorem claimC8_fallbackTotal (event : RawEvent) :
    (∃ s, (fallbackClassification event).meeting_type = JVal.str s ∧ s ≠ "") ∧
    (∃ s, (fallbackClassification event).role = JVal.str s ∧ s ≠ "") ∧
    (∃ s, (fallbackClassification event).emotional_intensity = JVal.str s ∧ s ≠ "") ∧
    (∃ ts : List String, (fallbackClassification event).topic_tags = ts.map JVal.str) ∧
    (event.meetingType = none →
      (fallbackClassification event).meeting_type = JVal.str "status") ∧
    (event.userRole = none →
      (fallbackClassification event).role = JVal.str "contributor") ∧
    (event.emotionalIntensity = none →
      (fallbackClassification event).emotional_intensity = JVal.str "routine") ∧
    (event.topicTags = none →
      (fallbackClassification event).topic_tags = [JVal.str "general"]) := by
  refine ⟨⟨jsOrStr event.meetingType "status", rfl,
      jsOrStr_ne_empty _ _ (by decide)⟩,
    ⟨jsOrStr event.userRole "contributor", rfl, jsOrStr_ne_empty _ _ (by decide)⟩,
    ⟨jsOrStr event.emotionalIntensity "routine", rfl,
      jsOrStr_ne_empty _ _ (by decide)⟩,
    ⟨event.topicTags.getD ["general"], rfl⟩, ?_, ?_, ?_, ?_⟩
  all_goals intro h
  all_goals rw [show (fallbackClassification event) =
    fallbackClassification event from rfl]
  · show JVal.str (jsOrStr event.meetingType "status") = JVal.str "status"
    rw [h]; rfl
  · show JVal.str (jsOrStr event.userRole "contributor") = JVal.str "contributor"
    rw [h]; rfl
  · show JVal.str (jsOrStr event.emotionalIntensity "routine") = JVal.str "routine"
    rw [h]; rfl
  · show (event.topicTags.getD ["general"]).map JVal.str = [JVal.str "general"]
    rw [h]; rfl

/-- C8 witness: on the event with no hints at all, the fallback is
status / contributor / routine / ["general"]. -/
theorem claimC8_witness :
    eventNoHints.meetingType = none ∧
    (fallbackClassification eventNoHints).meeting_type = JVal.str "status" ∧
    (fallbackClassification eventNoHints).role = JVal.str "contributor" ∧
    (fallbackClassification eventNoHints).emotional_intensity = JVal.str "routine" ∧
    (fallbackClassification eventNoHints).topic_tags = [JVal.str "general"] :=
  ⟨rfl, (claimC8_fallbackTotal eventNoHints).2.2.2.2.1 rfl,
    (claimC8_fallbackTotal eventNoHints).2.2.2.2.2.1 rfl,
    (claimC8_fallbackTotal eventNoHints).2.2.2.2.2.2.1 rfl,
    (claimC8_fallbackTotal eventNoHints).2.2.2.2.2.2.2 rfl⟩
